import Mathlib

/-!
Verification of the validation-and-merge core of the fastapi-intro service
(`src/main.py`), shallowly embedded in Lean.

The embedding follows the source: pydantic models become structures, each
handler becomes a pure function, pydantic's `.dict()` becomes an ordered
association list of field name and value, and Python's `dict.update` becomes
`dictUpdate`.  Fallible steps (path validation, the pydantic constructor
inside the login handler, the 404 branch) return `Except`.
-/

/-- The hair color enumeration of `main.py` (`class HairColor(Enum)`). -/
inductive HairColor where
  | white
  | black
  | brown
  | blonde
  deriving DecidableEq, Repr

/-- The `Location` pydantic model: three required strings. -/
structure Location where
  city : String
  state : String
  country : String
  deriving DecidableEq, Repr

/-- The `Person` pydantic model, fields in declaration order. -/
structure Person where
  first_name : String
  last_name : String
  age : Int
  hair_color : Option HairColor
  is_married : Option Bool
  email : String
  password : String
  deriving DecidableEq, Repr

/-- The `LoginOut` pydantic model: a single username field. -/
structure LoginOut where
  username : String
  deriving DecidableEq, Repr

/-- A JSON-serializable field value, as produced by pydantic's `.dict()`. -/
inductive Value where
  | str (s : String)
  | int (i : Int)
  | bool (b : Bool)
  | hair (c : HairColor)
  | null
  deriving DecidableEq, Repr

/-- Encode an optional payload the way `.dict()` renders `Optional` fields:
`None` becomes `null`, a present value is rendered by `f`. -/
def optValue {α : Type} (f : α → Value) : Option α → Value
  | some a => f a
  | none => Value.null

/-- `person.dict()`: the ordered field mapping of a `Person`. -/
def Person.dict (p : Person) : List (String × Value) :=
  [("first_name", Value.str p.first_name),
   ("last_name", Value.str p.last_name),
   ("age", Value.int p.age),
   ("hair_color", optValue Value.hair p.hair_color),
   ("is_married", optValue Value.bool p.is_married),
   ("email", Value.str p.email),
   ("password", Value.str p.password)]

/-- `location.dict()`: the ordered field mapping of a `Location`. -/
def Location.dict (l : Location) : List (String × Value) :=
  [("city", Value.str l.city),
   ("state", Value.str l.state),
   ("country", Value.str l.country)]

/-- `login_out.dict()`: the ordered field mapping of a `LoginOut`. -/
def LoginOut.dict (l : LoginOut) : List (String × Value) :=
  [("username", Value.str l.username)]

/-- Lookup of a key in an ordered field mapping (Python `d[k]` / `k in d`). -/
def dlookup (k : String) : List (String × Value) → Option Value
  | [] => none
  | (k2, v) :: rest => if k = k2 then some v else dlookup k rest

/-- Python's `d1.update(d2)` on dicts, on the ordered-association-list model:
keys of `d1` keep their position but take `d2`'s value when `d2` also has the
key; keys of `d2` not in `d1` are appended in order. -/
def dictUpdate (d1 d2 : List (String × Value)) : List (String × Value) :=
  d1.map (fun kv => match dlookup kv.1 d2 with
    | some v => (kv.1, v)
    | none => kv)
  ++ d2.filter (fun kv => (dlookup kv.1 d1).isNone)

/-- First-defined choice on optional values: the merge-lookup combinator. -/
def ofirst (a b : Option Value) : Option Value :=
  match a with
  | some v => some v
  | none => b

theorem dlookup_append (k : String) (l1 l2 : List (String × Value)) :
    dlookup k (l1 ++ l2) = ofirst (dlookup k l1) (dlookup k l2) := by
  induction l1 with
  | nil => simp [dlookup, ofirst]
  | cons hd tl ih =>
    obtain ⟨k2, v⟩ := hd
    by_cases hk : k = k2
    · simp [dlookup, hk, ofirst]
    · simp [dlookup, hk, ih]

theorem dlookup_map_update (k : String) (d1 d2 : List (String × Value)) :
    dlookup k (d1.map (fun kv => match dlookup kv.1 d2 with
      | some v => (kv.1, v)
      | none => kv)) =
    match dlookup k d1 with
    | some v => ofirst (dlookup k d2) (some v)
    | none => none := by
  induction d1 with
  | nil => simp [dlookup]
  | cons hd tl ih =>
    obtain ⟨k1, v1⟩ := hd
    by_cases hk : k = k1
    · subst hk
      cases hd2 : dlookup k d2 <;> simp [dlookup, hd2, ofirst]
    · cases hd2 : dlookup k1 d2 <;> simp [dlookup, hk, hd2, ih]

theorem dlookup_filter_update (k : String) (d1 d2 : List (String × Value)) :
    dlookup k (d2.filter (fun kv => (dlookup kv.1 d1).isNone)) =
    match dlookup k d1 with
    | some _ => none
    | none => dlookup k d2 := by
  induction d2 with
  | nil => cases hd1 : dlookup k d1 <;> simp [dlookup]
  | cons hd tl ih =>
    obtain ⟨k2, v2⟩ := hd
    by_cases hk : k = k2
    · subst hk
      cases hd1 : dlookup k d1 <;> simp_all [dlookup]
    · cases hp : (dlookup k2 d1).isNone <;>
        simp [List.filter_cons, hp, dlookup, hk, ih]

/-- The merged mapping looks up a key in the later record first, then in the
earlier one: the later writer wins on collision and nothing is lost. -/
theorem dlookup_dictUpdate (k : String) (d1 d2 : List (String × Value)) :
    dlookup k (dictUpdate d1 d2) = ofirst (dlookup k d2) (dlookup k d1) := by
  unfold dictUpdate
  rw [dlookup_append, dlookup_map_update, dlookup_filter_update]
  cases dlookup k d1 <;> cases dlookup k d2 <;> rfl

/-! ## Validation -/

/-- A single field violation, as aggregated by the schema validator. -/
inductive ViolationKind where
  | missing
  | length
  | range
  | enumeration
  | format
  deriving DecidableEq, Repr

/-- A violation names the offending field and the kind of constraint broken. -/
structure Violation where
  loc : String
  kind : ViolationKind
  deriving DecidableEq, Repr

/-- An error surfaced to the HTTP layer: a 422 validation payload, the 404 of
the detail endpoint, or a server fault from an exception inside a handler. -/
inductive HTTPError where
  | validation (errors : List Violation)
  | notFound (detail : String)
  | internal
  deriving DecidableEq, Repr

/-- Split a character list at every occurrence of `c` (an executable stand-in
for Python-style string splitting, used only by the email check). -/
def splitOnChar (c : Char) : List Char → List (List Char)
  | [] => [[]]
  | x :: xs =>
    match splitOnChar c xs with
    | [] => if x = c then [[], []] else [[x]]
    | r :: rs => if x = c then [] :: r :: rs else (x :: r) :: rs

/-- Modelled from the spec: the `EmailStr` format check is performed by a
third-party validator that is not part of this repository; per the spec it
requires a non-empty local part, exactly the shape local-part at-sign domain,
and a dot-separated domain whose segments are all non-empty. -/
def emailOk (s : String) : Bool :=
  match splitOnChar '@' s.toList with
  | [lp, dom] =>
    (!lp.isEmpty) &&
      (match splitOnChar '.' dom with
       | [] => false
       | [_] => false
       | ps => ps.all (fun seg => !seg.isEmpty))
  | _ => false

/-- A decoded but not yet validated `Person` payload: the raw field mapping
the `Person` schema is validated against. -/
structure RawPerson where
  first_name : String
  last_name : String
  age : Int
  hair_color : Option HairColor
  is_married : Option Bool
  email : String
  password : String
  deriving DecidableEq, Repr

/-- Carry the raw fields into a validated `Person` record. -/
def mkPerson (r : RawPerson) : Person :=
  ⟨r.first_name, r.last_name, r.age, r.hair_color, r.is_married, r.email, r.password⟩

/-- All field violations of a raw `Person` payload, in field declaration
order, against the constraints declared in `main.py`: `first_name` and
`last_name` length 1..50, `age` with `gt=0, le=115`, `email` shape, and
`password` with `min_length=8`.  Violations are collected, not fail-fast,
matching the validation library's aggregation contract. -/
def personViolations (r : RawPerson) : List Violation :=
  (if r.first_name.length < 1 ∨ 50 < r.first_name.length
    then [⟨"first_name", ViolationKind.length⟩] else []) ++
  (if r.last_name.length < 1 ∨ 50 < r.last_name.length
    then [⟨"last_name", ViolationKind.length⟩] else []) ++
  (if r.age ≤ 0 ∨ 115 < r.age
    then [⟨"age", ViolationKind.range⟩] else []) ++
  (if emailOk r.email
    then [] else [⟨"email", ViolationKind.format⟩]) ++
  (if r.password.length < 8
    then [⟨"password", ViolationKind.length⟩] else [])

/-- Validate a raw `Person` payload: a well-typed record, or every violation. -/
def validatePerson (r : RawPerson) : Except (List Violation) Person :=
  if personViolations r = [] then Except.ok (mkPerson r)
  else Except.error (personViolations r)

/-! ## Endpoint handlers -/

/-- Handler body of `POST /person/new` (`create_person`): echo the person. -/
def create_person (person : Person) : Person := person

/-- The serialized response of `POST /person/new`: the route is declared with
`response_model=Person` and `response_model_exclude={'password'}`, so the
password entry is dropped from the output mapping. -/
def create_person_response (person : Person) : List (String × Value) :=
  (create_person person).dict.filter (fun kv => kv.1 != "password")

/-- The fixed in-memory identifier list `persons = [1, 2, 3, 4, 5]`. -/
def persons : List Int := [1, 2, 3, 4, 5]

/-- Handler of `GET /person/detail/{person_id}` (`show_person_detail`): 404
when the id is not in `persons`, otherwise the singleton mapping
`{person_id: "It exist!"}`. -/
def show_person_detail (person_id : Int) : Except HTTPError (List (Int × String)) :=
  if person_id ∉ persons then
    Except.error (HTTPError.notFound "This person does not exist.")
  else
    Except.ok [(person_id, "It exist!")]

/-- Handler body of `PUT /person/{person_id}` (`update_person`): the body is
returned unchanged; the path id is not used. -/
def update_person (person_id : Int) (person : Person) : Person := person

/-- `PUT /person/{person_id}` including the framework's path validation: the
path parameter is declared `gt=0`, so a non-positive id is a 422 before the
handler runs; otherwise the handler's result is returned. -/
def update_person_op (person_id : Int) (person : Person) : Except HTTPError Person :=
  if person_id ≤ 0 then
    Except.error (HTTPError.validation [⟨"person_id", ViolationKind.range⟩])
  else
    Except.ok (update_person person_id person)

/-- The serialized response of `PUT /person/{person_id}`: the route declares
no `response_model` and no field exclusion, so the returned `Person` is
serialized with all of its fields. -/
def update_person_response (person_id : Int) (person : Person) : List (String × Value) :=
  (update_person person_id person).dict

/-- Handler body of `PUT /person-location/{person_id}`
(`update_person_location`): `results = person.dict()` followed by
`results.update(location.dict())`, returned as the response mapping. -/
def update_person_location (person_id : Int) (person : Person) (location : Location) :
    List (String × Value) :=
  dictUpdate person.dict location.dict

/-- The pydantic constructor call `LoginOut(username=username)`: constraints
of `LoginOut` (`max_length=20`) are checked at construction time and raise on
violation. -/
def mkLoginOut (username : String) : Except (List Violation) LoginOut :=
  if username.length ≤ 20 then Except.ok ⟨username⟩
  else Except.error [⟨"username", ViolationKind.length⟩]

/-- Handler body of `POST /login`: build `LoginOut` from the username alone;
the password is never used. -/
def login (username password : String) : Except (List Violation) LoginOut :=
  mkLoginOut username

/-- Form-stage violations for `POST /login`: both fields are declared as bare
`Form(...)`, so the only form-level constraint is presence. -/
def loginFormViolations (username password : Option String) : List Violation :=
  (if username.isNone then [⟨"username", ViolationKind.missing⟩] else []) ++
  (if password.isNone then [⟨"password", ViolationKind.missing⟩] else [])

/-- `POST /login` including form validation and response serialization: a
missing field is a 422; an exception raised by the `LoginOut` constructor
inside the handler surfaces as a server fault, not a validation error. -/
def login_op (username password : Option String) :
    Except HTTPError (List (String × Value)) :=
  match username, password with
  | some u, some p =>
    (match login u p with
     | Except.ok out => Except.ok out.dict
     | Except.error _ => Except.error HTTPError.internal)
  | _, _ => Except.error (HTTPError.validation (loginFormViolations username password))

/-! ## Sample inputs (taken from the example data in `main.py`) -/

/-- The example person of `Person.Config.schema_extra`. -/
def samplePerson : Person :=
  ⟨"Marisol", "Cardozo", 34, some HairColor.blonde, some false,
   "cardozomarisolp@gmail.com", "password"⟩

/-- A raw payload matching the example person: every field within bounds. -/
def rawGood : RawPerson :=
  ⟨"Marisol", "Cardozo", 34, some HairColor.blonde, some false,
   "cardozomarisolp@gmail.com", "password"⟩

/-- The example payload with an out-of-range age. -/
def rawBadAge : RawPerson :=
  ⟨"Marisol", "Cardozo", 200, some HairColor.blonde, some false,
   "cardozomarisolp@gmail.com", "password"⟩

/-- A payload violating several fields at once: empty first name, age 0,
malformed email, short password. -/
def rawMultiBad : RawPerson :=
  ⟨"", "Cardozo", 0, none, none, "nobody", "short"⟩

/-! ## Claim theorems -/

/-- Claim C1 (counterexample): the claim says no Person-returning endpoint
ever includes `password` in its output, but the response of
`PUT /person/{id}` for the example person contains the password entry. -/
theorem c1_password_in_update_output_cex :
    dlookup "password" (update_person_response 1 samplePerson)
      = some (Value.str "password") ∧
    dlookup "password" (update_person_response 1 samplePerson) ≠ none := by
  refine ⟨rfl, ?_⟩
  intro h
  simp [update_person_response, update_person, Person.dict, samplePerson, dlookup] at h

/-- Claim C1 (amended): only `POST /person/new` excludes the password from
its output (via `response_model_exclude`); the responses of
`PUT /person/{id}` and `PUT /person-location/{id}` both carry the person's
password. -/
theorem c1_password_exclusion_amended (person_id : Int) (p : Person) (loc : Location) :
    dlookup "password" (create_person_response p) = none ∧
    dlookup "password" (update_person_response person_id p)
      = some (Value.str p.password) ∧
    dlookup "password" (update_person_location person_id p loc)
      = some (Value.str p.password) :=
  ⟨rfl, rfl, rfl⟩

/-- Claim C2: for a positive id, the detail endpoint answers
`{id: "It exist!"}` exactly when the id belongs to the fixed list
`persons = [1,2,3,4,5]`, and answers the 404 not-found error exactly when it
does not; `persons` is a constant of the embedding, never mutated. -/
theorem c2_show_person_detail_membership (person_id : Int) (h : 0 < person_id) :
    persons = [1, 2, 3, 4, 5] ∧
    (show_person_detail person_id = Except.ok [(person_id, "It exist!")] ↔
      person_id ∈ persons) ∧
    (show_person_detail person_id
        = Except.error (HTTPError.notFound "This person does not exist.") ↔
      person_id ∉ persons) := by
  refine ⟨rfl, ?_, ?_⟩ <;>
    by_cases hmem : person_id ∈ persons <;>
      simp [show_person_detail, hmem]

/-- Claim C2 witness: the theorem instantiated at the concrete id 3. -/
theorem c2_show_person_detail_membership_witness :
    persons = [1, 2, 3, 4, 5] ∧
    (show_person_detail 3 = Except.ok [((3 : Int), "It exist!")] ↔
      (3 : Int) ∈ persons) ∧
    (show_person_detail 3
        = Except.error (HTTPError.notFound "This person does not exist.") ↔
      (3 : Int) ∉ persons) :=
  c2_show_person_detail_membership 3 (by decide)

/-- Claim C4: merging a Person and a Location (as `PUT /person-location/{id}`
does) yields one flat mapping holding every Person field and every Location
field, and on any key the Location record, merged later, wins. -/
theorem c4_person_location_merge_complete (person_id : Int) (p : Person) (loc : Location) :
    dlookup "first_name" (update_person_location person_id p loc)
      = some (Value.str p.first_name) ∧
    dlookup "last_name" (update_person_location person_id p loc)
      = some (Value.str p.last_name) ∧
    dlookup "age" (update_person_location person_id p loc)
      = some (Value.int p.age) ∧
    dlookup "hair_color" (update_person_location person_id p loc)
      = some (optValue Value.hair p.hair_color) ∧
    dlookup "is_married" (update_person_location person_id p loc)
      = some (optValue Value.bool p.is_married) ∧
    dlookup "email" (update_person_location person_id p loc)
      = some (Value.str p.email) ∧
    dlookup "password" (update_person_location person_id p loc)
      = some (Value.str p.password) ∧
    dlookup "city" (update_person_location person_id p loc)
      = some (Value.str loc.city) ∧
    dlookup "state" (update_person_location person_id p loc)
      = some (Value.str loc.state) ∧
    dlookup "country" (update_person_location person_id p loc)
      = some (Value.str loc.country) ∧
    (∀ k, dlookup k (update_person_location person_id p loc)
      = ofirst (dlookup k loc.dict) (dlookup k p.dict)) := by
  refine ⟨rfl, rfl, rfl, rfl, rfl, rfl, rfl, rfl, rfl, rfl, ?_⟩
  intro k
  exact dlookup_dictUpdate k p.dict loc.dict

/-- Claim C5 (counterexample): the claim says `PUT /person/{id}` returns the
id merged with the Person fields and 404s on unknown ids; but at the unknown
id 99 the operation succeeds, returns the body unchanged, and no id field
appears in the output. -/
theorem c5_update_person_cex :
    (99 : Int) ∉ persons ∧
    update_person_op 99 samplePerson = Except.ok samplePerson ∧
    dlookup "person_id" (update_person_response 99 samplePerson) = none ∧
    dlookup "id" (update_person_response 99 samplePerson) = none :=
  ⟨by decide, rfl, rfl, rfl⟩

/-- Claim C5 (amended): for every positive id, `PUT /person/{id}` returns the
Person body unchanged — the id is not merged into the result and the known-id
list is never consulted, so no 404 is raised; only a non-positive id fails,
as a 422 path validation error. -/
theorem c5_update_person_amended (person_id : Int) (p : Person) (h : 0 < person_id) :
    update_person_op person_id p = Except.ok p ∧
    update_person person_id p = p ∧
    dlookup "person_id" (update_person_response person_id p) = none := by
  refine ⟨?_, rfl, rfl⟩
  unfold update_person_op
  rw [if_neg (by omega)]
  rfl

/-- Claim C5 witness: the amended theorem at the unknown-to-the-list id 23. -/
theorem c5_update_person_amended_witness :
    update_person_op 23 samplePerson = Except.ok samplePerson ∧
    update_person 23 samplePerson = samplePerson ∧
    dlookup "person_id" (update_person_response 23 samplePerson) = none :=
  c5_update_person_amended 23 samplePerson (by decide)

/-- Claim C7: the merge is associative at every key, with the later writer
winning every collision (`dlookup` of a merge tries the later record first). -/
theorem c7_dictUpdate_assoc (a b c : List (String × Value)) (k : String) :
    dlookup k (dictUpdate (dictUpdate a b) c)
      = dlookup k (dictUpdate a (dictUpdate b c)) ∧
    dlookup k (dictUpdate a b) = ofirst (dlookup k b) (dlookup k a) := by
  refine ⟨?_, dlookup_dictUpdate k a b⟩
  rw [dlookup_dictUpdate, dlookup_dictUpdate, dlookup_dictUpdate, dlookup_dictUpdate]
  cases dlookup k a <;> cases dlookup k b <;> cases dlookup k c <;> rfl

/-- Claim C3: an age outside (0, 115] makes validation fail with a range
violation naming `age`, whatever the other fields hold; an age in [1, 115]
with the other fields within bounds makes validation succeed. -/
theorem c3_person_age_validation (r : RawPerson) :
    ((r.age ≤ 0 ∨ 115 < r.age) →
      validatePerson r = Except.error (personViolations r) ∧
      Violation.mk "age" ViolationKind.range ∈ personViolations r) ∧
    ((1 ≤ r.age ∧ r.age ≤ 115) →
      1 ≤ r.first_name.length → r.first_name.length ≤ 50 →
      1 ≤ r.last_name.length → r.last_name.length ≤ 50 →
      emailOk r.email = true → 8 ≤ r.password.length →
      validatePerson r = Except.ok (mkPerson r)) := by
  constructor
  · intro hbad
    have hmem : Violation.mk "age" ViolationKind.range ∈ personViolations r := by
      unfold personViolations
      rw [if_pos hbad]
      simp
    have hne : personViolations r ≠ [] := List.ne_nil_of_mem hmem
    refine ⟨?_, hmem⟩
    unfold validatePerson
    rw [if_neg hne]
  · intro hage h1 h2 h3 h4 hmail hpw
    have hviol : personViolations r = [] := by
      unfold personViolations
      rw [if_neg (by omega), if_neg (by omega), if_neg (by omega),
        if_pos hmail, if_neg (by omega)]
      rfl
    unfold validatePerson
    rw [if_pos hviol]

/-- Claim C3 witness: the rejection branch at the example payload with age
200, and the acceptance branch at the example payload itself. -/
theorem c3_person_age_validation_witness :
    (validatePerson rawBadAge = Except.error (personViolations rawBadAge) ∧
      Violation.mk "age" ViolationKind.range ∈ personViolations rawBadAge) ∧
    validatePerson rawGood = Except.ok (mkPerson rawGood) :=
  ⟨(c3_person_age_validation rawBadAge).1 (by decide),
   (c3_person_age_validation rawGood).2 (by decide) (by decide) (by decide)
     (by decide) (by decide) (by decide) (by decide)⟩

/-- Claim C6: when the username fits the 20-character bound, login succeeds,
its result exposes exactly the username, the serialized result has no
password entry, and the result does not depend on the password at all. -/
theorem c6_login_username_only (username password : String)
    (h : username.length ≤ 20) :
    login username password = Except.ok (LoginOut.mk username) ∧
    (∀ pw2, login username pw2 = login username password) ∧
    LoginOut.dict (LoginOut.mk username) = [("username", Value.str username)] ∧
    dlookup "password" (LoginOut.dict (LoginOut.mk username)) = none := by
  refine ⟨?_, fun pw2 => rfl, rfl, rfl⟩
  unfold login mkLoginOut
  rw [if_pos h]

/-- Claim C6 witness: the login example of the spec, username mcardozo. -/
theorem c6_login_username_only_witness :
    login "mcardozo" "anything8+" = Except.ok (LoginOut.mk "mcardozo") ∧
    (∀ pw2, login "mcardozo" pw2 = login "mcardozo" "anything8+") ∧
    LoginOut.dict (LoginOut.mk "mcardozo")
      = [("username", Value.str "mcardozo")] ∧
    dlookup "password" (LoginOut.dict (LoginOut.mk "mcardozo")) = none :=
  c6_login_username_only "mcardozo" "anything8+" (by decide)

/-- Claim C8: validation is not fail-fast — whenever it fails it surfaces the
whole violation list, and each field's violation belongs to that one list as
soon as that field is out of bounds, independently of the other fields. -/
theorem c8_validation_collects_all (r : RawPerson) :
    (personViolations r ≠ [] →
      validatePerson r = Except.error (personViolations r)) ∧
    ((r.first_name.length < 1 ∨ 50 < r.first_name.length) →
      Violation.mk "first_name" ViolationKind.length ∈ personViolations r) ∧
    ((r.last_name.length < 1 ∨ 50 < r.last_name.length) →
      Violation.mk "last_name" ViolationKind.length ∈ personViolations r) ∧
    ((r.age ≤ 0 ∨ 115 < r.age) →
      Violation.mk "age" ViolationKind.range ∈ personViolations r) ∧
    (emailOk r.email = false →
      Violation.mk "email" ViolationKind.format ∈ personViolations r) ∧
    (r.password.length < 8 →
      Violation.mk "password" ViolationKind.length ∈ personViolations r) := by
  refine ⟨?_, ?_, ?_, ?_, ?_, ?_⟩
  · intro hne
    unfold validatePerson
    rw [if_neg hne]
  · intro hbad
    unfold personViolations
    rw [if_pos hbad]
    simp
  · intro hbad
    unfold personViolations
    rw [if_pos hbad]
    simp
  · intro hbad
    unfold personViolations
    rw [if_pos hbad]
    simp
  · intro hbad
    simp [personViolations, hbad]
  · intro hbad
    unfold personViolations
    rw [if_pos hbad]
    simp

/-- Claim C8 witness: a payload violating first name, age, email and
password at once carries all four violations in the one error list. -/
theorem c8_validation_collects_all_witness :
    validatePerson rawMultiBad = Except.error (personViolations rawMultiBad) ∧
    Violation.mk "first_name" ViolationKind.length ∈ personViolations rawMultiBad ∧
    Violation.mk "age" ViolationKind.range ∈ personViolations rawMultiBad ∧
    Violation.mk "email" ViolationKind.format ∈ personViolations rawMultiBad ∧
    Violation.mk "password" ViolationKind.length ∈ personViolations rawMultiBad :=
  ⟨(c8_validation_collects_all rawMultiBad).1 (by decide),
   (c8_validation_collects_all rawMultiBad).2.1 (by decide),
   (c8_validation_collects_all rawMultiBad).2.2.2.1 (by decide),
   (c8_validation_collects_all rawMultiBad).2.2.2.2.1 (by decide),
   (c8_validation_collects_all rawMultiBad).2.2.2.2.2 (by decide)⟩

/-- Claim C9: the outcome of `PUT /person/{id}` is independent of which
positive id was supplied, and the serialized output carries no id field. -/
theorem c9_update_person_id_independent (id1 id2 : Int) (p : Person)
    (h1 : 0 < id1) (h2 : 0 < id2) :
    update_person_op id1 p = update_person_op id2 p ∧
    update_person_response id1 p = update_person_response id2 p ∧
    dlookup "person_id" (update_person_response id1 p) = none ∧
    dlookup "id" (update_person_response id1 p) = none := by
  refine ⟨?_, rfl, rfl, rfl⟩
  unfold update_person_op
  rw [if_neg (by omega), if_neg (by omega)]
  rfl

/-- Claim C9 witness: ids 1 and 99 with the example person. -/
theorem c9_update_person_id_independent_witness :
    update_person_op 1 samplePerson = update_person_op 99 samplePerson ∧
    update_person_response 1 samplePerson = update_person_response 99 samplePerson ∧
    dlookup "person_id" (update_person_response 1 samplePerson) = none ∧
    dlookup "id" (update_person_response 1 samplePerson) = none :=
  c9_update_person_id_independent 1 99 samplePerson (by decide) (by decide)

/-- Claim C10: a username over 20 characters passes the form stage (bare
`Form(...)` constrains nothing but presence) and then fails inside the
handler when the `LoginOut` constructor checks `max_length=20`, so the
operation surfaces a server fault rather than a request validation error. -/
theorem c10_login_limit_in_handler (u pw : String) (h : 20 < u.length) :
    loginFormViolations (some u) (some pw) = [] ∧
    login u pw = Except.error [Violation.mk "username" ViolationKind.length] ∧
    login_op (some u) (some pw) = Except.error HTTPError.internal := by
  have hlogin : login u pw
      = Except.error [Violation.mk "username" ViolationKind.length] := by
    unfold login mkLoginOut
    rw [if_neg (by omega)]
  refine ⟨rfl, hlogin, ?_⟩
  simp [login_op, hlogin]

/-- Claim C10 witness: a 21-character username with some password. -/
theorem c10_login_limit_in_handler_witness :
    loginFormViolations (some "abcdefghijklmnopqrstu") (some "pw") = [] ∧
    login "abcdefghijklmnopqrstu" "pw"
      = Except.error [Violation.mk "username" ViolationKind.length] ∧
    login_op (some "abcdefghijklmnopqrstu") (some "pw")
      = Except.error HTTPError.internal :=
  c10_login_limit_in_handler "abcdefghijklmnopqrstu" "pw" (by decide)
